import Mathlib

/-
Verification development for the arvr repository, `src/server/server.py`.

The embedding below translates the gesture-classification and
action-dispatch core of the `Server` class into Lean:

* numeric sensor values (Python floats used only through `float(...)`,
  subtraction, comparison and `abs`) are modelled as rationals `ℚ`;
* the mutable `Server` object is modelled as an explicit `ServerState`
  record which every operation threads through;
* the OS-level action sink (keyboard events, volume changes) is modelled
  as a list of `SinkEffect` values emitted by a dispatch;
* fallible steps (a Python statement that raises an exception which no
  enclosing `except` clause catches) are modelled with `Option` /
  an explicit `crashed` outcome;
* real time in `start_experiment` is modelled discretely: one iteration
  of the polling loop costs one tick of 0.1 s (the `time.sleep(0.1)`),
  and the 3-second bound `(time.time()-start) <= 3` becomes `t ≤ 30`
  ticks; random choices and the concurrently written `last_action` cell
  are oracles passed in as functions.
-/

namespace Server

/-- A 3-component vector of sensor values.  The Python code stores the
history vectors as 3-element lists; index 0 is `x`, 1 is `y`, 2 is `z`. -/
structure Vec3 where
  x : ℚ
  y : ℚ
  z : ℚ
deriving DecidableEq

/-- One decoded sensor record (`server.py` lines 935-940, the `data` dict). -/
structure SensorData where
  timestep : ℚ
  action : String
  gyroscope : Vec3
  acceleration : Vec3
  rotation : Vec3
deriving DecidableEq

/-- One entry of the `settings` dict: `{'Interaction': ..., 'Type': ...}`. -/
structure Setting where
  interaction : String
  type : String
deriving DecidableEq

/-- The mutable state of the `Server` object that the claims depend on
(`__init__`, lines 27-70).  UI widgets, the socket and the audio device
handle are external collaborators and are not part of the model.
`settings` models the Python dict as a partial lookup (a missing key is a
`KeyError`).  Note the source initialises `self.accellerometer_history`
(line 69, misspelt) but `get_tilt_kind` writes `self.accelerometer_history`
(line 988), a different attribute that does not exist until first written;
both fields are kept, the written one as an `Option`. -/
structure ServerState where
  settings : String → Option Setting
  active_status : Bool
  test_status : Bool
  last_action_timestep : ℚ
  last_action : String
  gyroscope_history : Vec3
  accellerometer_history : Vec3
  accelerometer_history : Option Vec3
  rotation_history : Vec3

/-- The twelve interaction kinds (`self.ACTIONS`, lines 30-41). -/
def ACTIONS : List String :=
  ["Not Used", "Play/Pause", "Previous", "Next", "Stop", "Volume +",
   "Volume -", "Seek +", "Seek -", "Scroll UP", "Scroll DOWN", "Mute"]

/-- The six interaction kinds whose table entry carries flag `True`
(lines 52-57): the parameterized actions. -/
def PARAMETERIZED_ACTIONS : List String :=
  ["Volume +", "Volume -", "Seek +", "Seek -", "Scroll UP", "Scroll DOWN"]

/-- The sixteen gesture keys populated by `populate_settings`
(lines 97-112). -/
def SETTINGS_KEYS : List String :=
  ["LSTU", "LSTD", "LSTL", "LSTR", "RSTU", "RSTD", "RSTL", "RSTR",
   "TSTU", "TSTD", "TSTL", "TSTR", "BSTU", "BSTD", "BSTL", "BSTR"]

/-- Default settings created when no settings file exists
(`populate_settings`, lines 96-112): every key bound to Not Used. -/
def default_settings (key : String) : Option Setting :=
  if key ∈ SETTINGS_KEYS then some ⟨"Not Used", "Not Used"⟩ else none

/-- Initial server state (`__init__` lines 60-70 with default settings). -/
def initialState : ServerState where
  settings := default_settings
  active_status := false
  test_status := false
  last_action_timestep := 0
  last_action := ""
  gyroscope_history := ⟨0, 0, 0⟩
  accellerometer_history := ⟨0, 0, 0⟩
  accelerometer_history := none
  rotation_history := ⟨0, 0, 0⟩

/-- An observable call into the external action sink: a synthetic key
press (`keyboard.send`) or a master-volume change
(`SetMasterVolumeLevel(current ± 2.0)`). -/
inductive SinkEffect where
  | keySend (key : String)
  | volumeDelta (delta : ℚ)
deriving DecidableEq

/-- The sink effects of each action method (lines 993-1039).  A
zero-argument method is a plain effect list, a one-argument method takes
the `Type` string it is invoked with (the parameter is accepted but never
used to scale any effect, exactly as in the source). -/
def not_used : List SinkEffect := []

def play_pause : List SinkEffect := [.keySend "space"]

def previous : List SinkEffect := [.keySend "left"]

def next : List SinkEffect := [.keySend "right"]

def stop : List SinkEffect := []

def increase_vol (_mode : String) : List SinkEffect := [.volumeDelta 2]

def decrease_vol (_mode : String) : List SinkEffect := [.volumeDelta (-2)]

def increase_seek (_arg : String) : List SinkEffect := []

def decrease_seek (_arg : String) : List SinkEffect := []

def scroll_up (_arg : String) : List SinkEffect := [.keySend "up"]

def scroll_down (_arg : String) : List SinkEffect := [.keySend "down"]

def mute : List SinkEffect := []

/-- A table entry's function: zero-argument or one-argument (taking the
binding's `Type` string), mirroring the two Python call shapes. -/
inductive Func where
  | f0 (effects : List SinkEffect)
  | f1 (run : String → List SinkEffect)

/-- The dispatch table `self.interaction_funcs` (lines 47-58): each
interaction name maps to a `[function, parameterized-flag]` pair.  A name
outside the table is a `KeyError` (`none`). -/
def interaction_funcs (name : String) : Option (Func × Bool) :=
  match name with
  | "Not Used"    => some (.f0 not_used,      false)
  | "Play/Pause"  => some (.f0 play_pause,    false)
  | "Previous"    => some (.f0 previous,      false)
  | "Next"        => some (.f0 next,          false)
  | "Stop"        => some (.f0 stop,          false)
  | "Volume +"    => some (.f1 increase_vol,  true)
  | "Volume -"    => some (.f1 decrease_vol,  true)
  | "Seek +"      => some (.f1 increase_seek, true)
  | "Seek -"      => some (.f1 decrease_seek, true)
  | "Scroll UP"   => some (.f1 scroll_up,     true)
  | "Scroll DOWN" => some (.f1 scroll_down,   true)
  | "Mute"        => some (.f0 mute,          false)
  | _ => none

/-- Python's built-in `abs` on a numeric value. -/
def pyAbs (q : ℚ) : ℚ := if q < 0 then -q else q

/-- `Server.get_tilt_kind` (lines 974-990): compare the rotation-x delta
magnitude against the rotation-y delta magnitude against the stored
rotation history, produce the tilt code, then unconditionally overwrite
all three rolling histories with the current vectors.  Returns the tilt
string together with the updated state. -/
def get_tilt_kind (st : ServerState) (gyro_data acc_data rot_data : Vec3) :
    String × ServerState :=
  let tilt :=
    if pyAbs (rot_data.x - st.rotation_history.x) >
       pyAbs (rot_data.y - st.rotation_history.y) then
      if rot_data.x - st.rotation_history.x > 0 then "TR" else "TL"
    else
      if rot_data.y - st.rotation_history.y > 0 then "TD" else "TU"
  (tilt,
   { st with
     gyroscope_history := gyro_data
     accelerometer_history := some acc_data
     rotation_history := rot_data })

/-- The gesture key computed at line 960:
`data['Action'] + self.get_tilt_kind(...)`. -/
def current_interaction (st : ServerState) (data : SensorData) : String :=
  data.action ++ (get_tilt_kind st data.gyroscope data.acceleration data.rotation).1

/-- One recorded call of an action method: `func()` or `func(type)`. -/
inductive Invocation where
  | call0 (name : String)
  | call1 (name : String) (arg : String)
deriving DecidableEq

/-- The observable outcome of `execute_command` when it returns normally:
the displayed gesture key (`current_action_var`), the action-method call
made (if any) and the sink effects it produced. -/
structure ExecResult where
  key : String
  invocation : Option Invocation
  effects : List SinkEffect
deriving DecidableEq

/-- `Server.execute_command` (lines 959-972).  The classifier runs first
(updating the histories), then:
* `active_status` (live mode): look up the binding of the computed key in
  `settings` and the function table, and call the function with the
  binding's `Type` when its parameterized flag is set, with no argument
  otherwise.  A missing settings key or table entry is an uncaught
  `KeyError`; calling with the wrong arity would be a `TypeError`;
  both are modelled as `none`.
* `test_status` (experiment mode): record the timestep and key into
  `last_action_timestep` / `last_action`, no sink call.
* otherwise: idle, no side effect beyond the classifier history update.
The second component is the state after the call (histories are already
updated even on the crash paths, since `get_tilt_kind` ran first). -/
def execute_command (st : ServerState) (data : SensorData) :
    Option ExecResult × ServerState :=
  let tiltSt := get_tilt_kind st data.gyroscope data.acceleration data.rotation
  let key := data.action ++ tiltSt.1
  let st1 := tiltSt.2
  if st1.active_status then
    match st1.settings key with
    | none => (none, st1)
    | some s =>
      match interaction_funcs s.interaction with
      | none => (none, st1)
      | some (f, flag) =>
        if flag then
          match f with
          | .f1 g => (some ⟨key, some (.call1 s.interaction s.type), g s.type⟩, st1)
          | .f0 _ => (none, st1)
        else
          match f with
          | .f0 e => (some ⟨key, some (.call0 s.interaction), e⟩, st1)
          | .f1 _ => (none, st1)
  else if st1.test_status then
    (some ⟨key, none, []⟩,
     { st1 with last_action_timestep := data.timestep, last_action := key })
  else
    (some ⟨key, none, []⟩, st1)

/-- Digits-to-number accumulator for the decimal parser. -/
def digitsToNat (cs : List Char) : ℕ :=
  cs.foldl (fun n c => 10 * n + (c.toNat - 48)) 0

/-- Python's `float(s)` on the space-free record fields: an optional
sign, then decimal digits with at most one decimal point and at least one
digit.  (Exponent and inf/nan forms, which no record in this development
uses, are not modelled.)  `none` models the `ValueError` raised on any
other string. -/
def parseFloat (s : String) : Option ℚ :=
  let signBody : ℚ × List Char :=
    match s.data with
    | '-' :: r => (-1, r)
    | '+' :: r => (1, r)
    | cs => (1, cs)
  let ip := signBody.2.takeWhile (fun c => !(c == '.'))
  let fp := (signBody.2.dropWhile (fun c => !(c == '.'))).drop 1
  if fp.any (fun c => c == '.') then none
  else if !(ip.all Char.isDigit && fp.all Char.isDigit) then none
  else if ip.isEmpty && fp.isEmpty then none
  else
    some (signBody.1 *
      ((digitsToNat ip : ℚ) + (digitsToNat fp : ℚ) / ((10 ^ fp.length : ℕ) : ℚ)))

/-- `message_string.replace(' ', '')` (line 930): drop every space. -/
def removeSpaces (s : String) : String := ⟨s.data.filter (fun c => !(c == ' '))⟩

/-- Python `str.split(',')` on the character list: `""` gives `[""]`,
separators are not merged, trailing separators give trailing empties. -/
def splitCommas : List Char → List (List Char)
  | [] => [[]]
  | c :: cs =>
    match splitCommas cs with
    | [] => [[]]
    | f :: fs => if c == ',' then [] :: f :: fs else (c :: f) :: fs

/-- `message_string.replace(' ', '').split(",")` (line 930). -/
def split_fields (s : String) : List String :=
  (splitCommas (removeSpaces s).data).map (fun cs => ⟨cs⟩)

/-- Outcome of one iteration of the `get_data` receive loop. -/
inductive StepResult where
  /-- The record was ignored (`if message_string:` false, or
  `len(...) != 12` hit `continue`); the loop moves on. -/
  | skipped
  /-- The record was decoded and dispatched; the displayed key. -/
  | processed (key : String)
  /-- An exception not caught by `except (KeyboardInterrupt, SystemExit)`
  (a `ValueError` from `float`, or a `KeyError`/`TypeError` from
  `execute_command`) escaped: the loop, and with it the ingestion
  thread, terminates. -/
  | crashed
deriving DecidableEq

/-- The numeric stage of the record decoder (lines 936-954): given the
zone label (field 1) and the ten `float(...)` results for field 0 and
fields 2-10, build the `data` record and dispatch it, or crash on the
first `ValueError` (`none`): the only `except` clause of `get_data`
(line 956) catches `KeyboardInterrupt`/`SystemExit`, neither of which
parsing or dispatch raises, so the exception terminates the loop. -/
def decode_nums (st : ServerState) (action : String) :
    Option ℚ → Option ℚ → Option ℚ → Option ℚ → Option ℚ → Option ℚ →
    Option ℚ → Option ℚ → Option ℚ → Option ℚ → StepResult × ServerState
  | some ts, some gx, some gy, some gz, some ax, some ay, some az,
    some rx, some ry, some rz =>
    match execute_command st
        ⟨ts, action, ⟨gx, gy, gz⟩, ⟨ax, ay, az⟩, ⟨rx, ry, rz⟩⟩ with
    | (some res, st') => (.processed res.key, st')
    | (none, st') => (.crashed, st')
  | _, _, _, _, _, _, _, _, _, _ => (.crashed, st)

/-- The field stage of the record decoder: exactly 12 split fields are
parsed (field 0 as the timestep, field 1 as the zone label, fields 2-10
as the nine sensor floats, field 11 ignored); any other field count hits
`continue` (line 933) and the record is silently skipped. -/
def decode_fields (st : ServerState) : List String → StepResult × ServerState
  | [ts_s, action, gx_s, gy_s, gz_s, ax_s, ay_s, az_s, rx_s, ry_s, rz_s, _last] =>
    decode_nums st action (parseFloat ts_s) (parseFloat gx_s) (parseFloat gy_s)
      (parseFloat gz_s) (parseFloat ax_s) (parseFloat ay_s) (parseFloat az_s)
      (parseFloat rx_s) (parseFloat ry_s) (parseFloat rz_s)
  | _ => (.skipped, st)

/-- One iteration of the `while True` loop of `Server.get_data`
(lines 916-957) on an already-decoded UTF-8 message string.  The UI label
updates are external; everything else follows the source: skip an empty
message (`if message_string:` is false), split on commas after removing
spaces, then run the two decoder stages above. -/
def get_data_step (st : ServerState) (message_string : String) :
    StepResult × ServerState :=
  if message_string = "" then (.skipped, st)
  else decode_fields st (split_fields message_string)

/-- The ingestion loop over a finite prefix of the UDP message stream:
processes messages in order until the list is exhausted or an iteration
crashes.  Returns the final state, the keys of the processed records, and
whether the loop terminated by crashing (after which the remaining
messages are never processed). -/
def get_data_loop (st : ServerState) : List String → ServerState × List String × Bool
  | [] => (st, [], false)
  | m :: ms =>
    match get_data_step st m with
    | (.crashed, st') => (st', [], true)
    | (.skipped, st') => get_data_loop st' ms
    | (.processed k, st') =>
      match get_data_loop st' ms with
      | (st'', ks, c) => (st'', k :: ks, c)

/-- `toggle_activation` (lines 177-183): flip `active_status`. -/
def toggle_activation (st : ServerState) : ServerState :=
  if st.active_status then { st with active_status := false }
  else { st with active_status := true }

/-- `start_experiment` entering its run: `self.test_status = True`
(line 861). -/
def experiment_begin (st : ServerState) : ServerState :=
  { st with test_status := true }

/-- `start_experiment` finishing its run: `self.test_status = False`
(line 898). -/
def experiment_end (st : ServerState) : ServerState :=
  { st with test_status := false }

/-- The events that drive the two mode flags: the user pressing the
Enable/Disable Interaction button, and the experiment runner starting or
finishing a run. -/
inductive ModeEvent where
  | toggle
  | experimentBegin
  | experimentEnd
deriving DecidableEq

/-- Apply one mode event to the server state. -/
def mode_step (st : ServerState) : ModeEvent → ServerState
  | .toggle => toggle_activation st
  | .experimentBegin => experiment_begin st
  | .experimentEnd => experiment_end st

/-- The state reached from startup by a sequence of mode events. -/
def run_mode (events : List ModeEvent) : ServerState :=
  events.foldl mode_step initialState

/-- One row of `experiment_results` (line 894):
`(interaction, round(end-start, 3), found, self.interaction_mode.get())`.
`time` is in seconds (the model counts ticks of 0.1 s). -/
structure TrialResult where
  interaction : String
  time : ℚ
  correct : Bool
  mode : ℕ
deriving DecidableEq

/-- The polling loop of one trial (lines 875-887).  `t` is the elapsed
time in ticks of 0.1 s; the loop body runs while `t ≤ 30` (the Python
guard `(time.time()-start) <= 3`).  `obs t` is the value of the shared
`self.last_action` cell when the body reads it at time `t` (written
concurrently by the ingestion loop; cleared by this loop after each
read, so each tick sees a fresh oracle value).  A non-empty observed
action is looked up in `settings` (lines 879-880); a missing key is an
uncaught `KeyError` that kills the experiment thread (`none`).  A match
breaks with `found = True` at time `t`; otherwise the loop sleeps one
tick.  On normal timeout the loop exits with `t = 31` ticks elapsed.
`fuel` bounds the recursion; `run_trial` supplies more than the 31
iterations the time guard allows, so fuel never runs out. -/
def poll_loop (settings : String → Option Setting) (interaction : String)
    (obs : ℕ → String) : ℕ → ℕ → Option (Bool × ℕ)
  | t, 0 => some (false, t)
  | t, fuel + 1 =>
    if 30 < t then some (false, t)
    else if obs t = "" then poll_loop settings interaction obs (t + 1) fuel
    else
      match settings (obs t) with
      | none => none
      | some s =>
        if s.interaction = interaction then some (true, t)
        else poll_loop settings interaction obs (t + 1) fuel

/-- One full trial: run the polling loop from `t = 0`.  Returns
`(found, elapsed ticks)`, or `none` when the loop raised. -/
def run_trial (settings : String → Option Setting) (interaction : String)
    (obs : ℕ → String) : Option (Bool × ℕ) :=
  poll_loop settings interaction obs 0 32

/-- The `for i in range(0, 10)` body of `start_experiment`
(lines 866-896), for trials `i, i+1, ..., i+n-1`: pick the trial's
required interaction (`choice i` models
`random.choice(list(self.interaction_widgets.items()))`), run the
polling loop against the observation oracle `obs i`, and append one
result row per trial.  A crashed trial (`none`) aborts the run with no
result list (the thread died before writing any file). -/
def experiment_loop (settings : String → Option Setting) (choice : ℕ → String)
    (obs : ℕ → ℕ → String) (mode : ℕ) : ℕ → ℕ → Option (List TrialResult)
  | _, 0 => some []
  | i, n + 1 =>
    match run_trial settings (choice i) (obs i) with
    | none => none
    | some (found, t) =>
      match experiment_loop settings choice obs mode (i + 1) n with
      | none => none
      | some rest => some (⟨choice i, (t : ℚ) / 10, found, mode⟩ :: rest)

/-- `Server.start_experiment`'s result sequence (lines 861-896): ten
trials starting at index 0.  `mode` is `self.interaction_mode.get()`
(1 = Speed Test, 2 = Interactive Test). -/
def start_experiment (settings : String → Option Setting) (choice : ℕ → String)
    (obs : ℕ → ℕ → String) (mode : ℕ) : Option (List TrialResult) :=
  experiment_loop settings choice obs mode 0 10

/-! Helper lemmas. -/

/-- Python's `abs` agrees with the mathematical absolute value. -/
theorem pyAbs_eq_abs (q : ℚ) : pyAbs q = |q| := by
  unfold pyAbs
  split
  · exact (abs_of_neg (by assumption)).symm
  · exact (abs_of_nonneg (le_of_not_lt (by assumption))).symm

/-- The classifier only rewrites the history vectors: `settings` is
untouched. -/
theorem get_tilt_kind_settings (st : ServerState) (g a r : Vec3) :
    ((get_tilt_kind st g a r).2).settings = st.settings := rfl

/-- The classifier only rewrites the history vectors: `active_status` is
untouched. -/
theorem get_tilt_kind_active (st : ServerState) (g a r : Vec3) :
    ((get_tilt_kind st g a r).2).active_status = st.active_status := rfl

/-- The classifier only rewrites the history vectors: `test_status` is
untouched. -/
theorem get_tilt_kind_test (st : ServerState) (g a r : Vec3) :
    ((get_tilt_kind st g a r).2).test_status = st.test_status := rfl

/-- The dispatch-table entry of the Not Used interaction. -/
theorem interaction_funcs_not_used :
    interaction_funcs "Not Used" = some (Func.f0 not_used, false) := rfl

/-- `float("0")` is 0. -/
theorem parseFloat_zero : parseFloat "0" = some 0 := by
  rw [show parseFloat "0" =
    some ((1 : ℚ) * (((0 : ℕ) : ℚ) + ((0 : ℕ) : ℚ) / (((10 ^ 0 : ℕ)) : ℚ))) from rfl]
  norm_num

/-- `float("1")` is 1. -/
theorem parseFloat_one : parseFloat "1" = some 1 := by
  rw [show parseFloat "1" =
    some ((1 : ℚ) * (((1 : ℕ) : ℚ) + ((0 : ℕ) : ℚ) / (((10 ^ 0 : ℕ)) : ℚ))) from rfl]
  norm_num

/-- `float("5")` is 5. -/
theorem parseFloat_five : parseFloat "5" = some 5 := by
  rw [show parseFloat "5" =
    some ((1 : ℚ) * (((5 : ℕ) : ℚ) + ((0 : ℕ) : ℚ) / (((10 ^ 0 : ℕ)) : ℚ))) from rfl]
  norm_num

/-- `float("0.5")` is one half. -/
theorem parseFloat_half : parseFloat "0.5" = some (1 / 2) := by
  rw [show parseFloat "0.5" =
    some ((1 : ℚ) * (((0 : ℕ) : ℚ) + ((5 : ℕ) : ℚ) / (((10 ^ 1 : ℕ)) : ℚ))) from rfl]
  norm_num

/-- A field list whose length is not 12 is skipped by the decoder with
the state untouched. -/
theorem decode_fields_skip (st : ServerState) (fields : List String)
    (h : fields.length ≠ 12) : decode_fields st fields = (.skipped, st) := by
  rcases fields with _ | ⟨a0, fields⟩
  · rfl
  rcases fields with _ | ⟨a1, fields⟩
  · rfl
  rcases fields with _ | ⟨a2, fields⟩
  · rfl
  rcases fields with _ | ⟨a3, fields⟩
  · rfl
  rcases fields with _ | ⟨a4, fields⟩
  · rfl
  rcases fields with _ | ⟨a5, fields⟩
  · rfl
  rcases fields with _ | ⟨a6, fields⟩
  · rfl
  rcases fields with _ | ⟨a7, fields⟩
  · rfl
  rcases fields with _ | ⟨a8, fields⟩
  · rfl
  rcases fields with _ | ⟨a9, fields⟩
  · rfl
  rcases fields with _ | ⟨a10, fields⟩
  · rfl
  rcases fields with _ | ⟨a11, fields⟩
  · rfl
  rcases fields with _ | ⟨a12, fields⟩
  · simp at h
  · rfl

/-- When every observed `last_action` value is empty or bound in
`settings`, the polling loop never raises. -/
theorem poll_loop_isSome (settings : String → Option Setting) (ia : String)
    (obs : ℕ → String) (h : ∀ u, obs u = "" ∨ (settings (obs u)).isSome) :
    ∀ fuel t, (poll_loop settings ia obs t fuel).isSome := by
  intro fuel
  induction fuel with
  | zero => intro t; simp [poll_loop]
  | succ n ih =>
    intro t
    unfold poll_loop
    by_cases h30 : 30 < t
    · simp [h30]
    · simp only [if_neg h30]
      by_cases hemp : obs t = ""
      · simp [hemp, ih]
      · simp only [if_neg hemp]
        rcases h t with he | hsome
        · exact absurd he hemp
        · obtain ⟨s, hs⟩ := Option.isSome_iff_exists.mp hsome
          rw [hs]
          by_cases hm : s.interaction = ia
          · simp [hm]
          · simp [hm, ih]

/-- When every observed `last_action` value is empty or bound in
`settings`, the trial loop starting at trial `i` yields exactly one
result row per trial. -/
theorem experiment_loop_length (settings : String → Option Setting)
    (choice : ℕ → String) (obs : ℕ → ℕ → String) (mode : ℕ)
    (h : ∀ j u, obs j u = "" ∨ (settings (obs j u)).isSome) :
    ∀ n i, ∃ rs, experiment_loop settings choice obs mode i n = some rs ∧
      rs.length = n := by
  intro n
  induction n with
  | zero => intro i; exact ⟨[], rfl, rfl⟩
  | succ n ih =>
    intro i
    have htrial : (run_trial settings (choice i) (obs i)).isSome :=
      poll_loop_isSome settings (choice i) (obs i) (h i) 32 0
    obtain ⟨⟨found, t⟩, ht⟩ := Option.isSome_iff_exists.mp htrial
    obtain ⟨rs, hrs, hlen⟩ := ih (i + 1)
    refine ⟨⟨choice i, (t : ℚ) / 10, found, mode⟩ :: rs, ?_, by simp [hlen]⟩
    unfold experiment_loop
    rw [ht, hrs]

/-- When no matching action is ever observed before the time guard
expires, the polling loop exits normally at tick 31 with `found = false`. -/
theorem poll_loop_timeout (settings : String → Option Setting) (ia : String)
    (obs : ℕ → String)
    (h : ∀ u, u ≤ 30 → obs u = "" ∨
      ∃ s, settings (obs u) = some s ∧ s.interaction ≠ ia) :
    ∀ fuel t, t ≤ 31 → 31 ≤ t + fuel →
      poll_loop settings ia obs t fuel = some (false, 31) := by
  intro fuel
  induction fuel with
  | zero =>
    intro t h1 h2
    have ht : t = 31 := by omega
    subst ht; rfl
  | succ n ih =>
    intro t h1 h2
    unfold poll_loop
    by_cases h30 : 30 < t
    · have ht : t = 31 := by omega
      subst ht; simp
    · simp only [if_neg h30]
      have hle : t ≤ 30 := by omega
      by_cases hemp : obs t = ""
      · simp only [hemp, if_pos rfl]
        exact ih (t + 1) (by omega) (by omega)
      · simp only [if_neg hemp]
        rcases h t hle with he | ⟨s, hs, hne⟩
        · exact absurd he hemp
        · rw [hs]
          simp only [if_neg hne]
          exact ih (t + 1) (by omega) (by omega)

/-! The claims. -/

set_option maxHeartbeats 2000000 in
/-- Claim C1 (code bug): a 12-field record whose third field `"abc"`
fails to parse as a float does not lead to a reported-and-dropped record:
the `ValueError` is not caught by `except (KeyboardInterrupt, SystemExit)`
(line 956), so the ingestion loop crashes and the following well-formed
record — which on its own would be decoded and classified as `"LSTD"` —
is never processed. -/
theorem get_data_float_crash_kills_loop :
    get_data_loop initialState
        ["0.5,LS,abc,1,1,0,0,0,0,5,0,", "0.5,LS,1,1,1,0,0,0,0,5,0,"] =
      (initialState, [], true) ∧
    (get_data_step initialState "0.5,LS,1,1,1,0,0,0,0,5,0,").1 =
      StepResult.processed "LSTD" := by
  constructor
  · rfl
  · have h1 : split_fields "0.5,LS,1,1,1,0,0,0,0,5,0," =
        ["0.5", "LS", "1", "1", "1", "0", "0", "0", "0", "5", "0", ""] := by
      decide
    have h2 : get_data_step initialState "0.5,LS,1,1,1,0,0,0,0,5,0," =
        decode_nums initialState "LS" (parseFloat "0.5") (parseFloat "1")
          (parseFloat "1") (parseFloat "1") (parseFloat "0") (parseFloat "0")
          (parseFloat "0") (parseFloat "0") (parseFloat "5") (parseFloat "0") := by
      unfold get_data_step
      rw [if_neg (show ¬("0.5,LS,1,1,1,0,0,0,0,5,0," = "") by decide), h1]
      rfl
    rw [h2, parseFloat_half, parseFloat_one, parseFloat_zero, parseFloat_five]
    norm_num [decode_nums, execute_command, get_tilt_kind, pyAbs, initialState]
    rfl

/-- Claim C2 (counterexample): enabling interaction and then starting an
experiment reaches a state in which the Live-dispatch flag
(`active_status`) and the experiment-timing flag (`test_status`) are both
true: the core does not enforce their mutual exclusion. -/
theorem mode_flags_both_true_reachable :
    (run_mode [ModeEvent.toggle, ModeEvent.experimentBegin]).active_status = true ∧
    (run_mode [ModeEvent.toggle, ModeEvent.experimentBegin]).test_status = true :=
  ⟨rfl, rfl⟩

/-- Claim C2 (amended): the two mode flags are independent booleans.
The user toggle flips only `active_status` and leaves `test_status`
unchanged; the experiment runner sets and clears only `test_status` and
leaves `active_status` unchanged; neither transition consults the other
flag, so no mutual exclusion is enforced by the core. -/
theorem mode_flags_independent (st : ServerState) :
    (toggle_activation st).test_status = st.test_status ∧
    (experiment_begin st).active_status = st.active_status ∧
    (experiment_end st).active_status = st.active_status ∧
    (experiment_begin st).test_status = true ∧
    (experiment_end st).test_status = false := by
  refine ⟨?_, rfl, rfl, rfl, rfl⟩
  unfold toggle_activation
  split <;> rfl

/-- Claim C3: for every sample and history state, the tilt is computed by
comparing the rotation-delta magnitudes: a strictly larger x-delta
magnitude gives `"TR"` (tilt Right) when the x-delta is positive and
`"TL"` (tilt Left) otherwise; a larger-or-equal y-delta magnitude (the
tie-break falls into this branch) gives `"TD"` (tilt Down) when the
y-delta is positive and `"TU"` (tilt Up) otherwise. -/
theorem get_tilt_kind_spec (st : ServerState) (g a r : Vec3) :
    (get_tilt_kind st g a r).1 =
      if |r.x - st.rotation_history.x| > |r.y - st.rotation_history.y| then
        if r.x - st.rotation_history.x > 0 then "TR" else "TL"
      else
        if r.y - st.rotation_history.y > 0 then "TD" else "TU" := by
  simp only [get_tilt_kind, pyAbs_eq_abs]

/-- Claim C4 (counterexample): the record
`"0.5,LeftScreen,1,1,1,0,0,0,0,5,0,,"` splits into 13 fields, not 12, so
the ingestion step silently discards it: it is never decoded or
classified, and no gesture key — in particular not `"LeftScreenDown"` —
is produced from it. -/
theorem scenario_record_thirteen_fields_dropped :
    (split_fields "0.5,LeftScreen,1,1,1,0,0,0,0,5,0,,").length = 13 ∧
    get_data_step initialState "0.5,LeftScreen,1,1,1,0,0,0,0,5,0,," =
      (StepResult.skipped, initialState) :=
  ⟨by decide, rfl⟩

set_option maxHeartbeats 2000000 in
/-- Claim C4 (amended): the 12-field record
`"0.5,LeftScreen,1,1,1,0,0,0,0,5,0,"` with rotation history `(0,0,0)`
decodes to rotation `(0,5,0)`, so the deltas are `Δx = 0`, `Δy = 5`, the
y-axis branch wins and the positive y-delta gives tilt code `"TD"` (the
Down tilt); the resulting gesture key is `"LeftScreenTD"`. -/
theorem scenario_record_twelve_fields_classified :
    (get_tilt_kind initialState ⟨1, 1, 1⟩ ⟨0, 0, 0⟩ ⟨0, 5, 0⟩).1 = "TD" ∧
    (get_data_step initialState "0.5,LeftScreen,1,1,1,0,0,0,0,5,0,").1 =
      StepResult.processed "LeftScreenTD" := by
  constructor
  · norm_num [get_tilt_kind, pyAbs, initialState]
  · have h1 : split_fields "0.5,LeftScreen,1,1,1,0,0,0,0,5,0," =
        ["0.5", "LeftScreen", "1", "1", "1", "0", "0", "0", "0", "5", "0", ""] := by
      decide
    have h2 : get_data_step initialState "0.5,LeftScreen,1,1,1,0,0,0,0,5,0," =
        decode_nums initialState "LeftScreen" (parseFloat "0.5") (parseFloat "1")
          (parseFloat "1") (parseFloat "1") (parseFloat "0") (parseFloat "0")
          (parseFloat "0") (parseFloat "0") (parseFloat "5") (parseFloat "0") := by
      unfold get_data_step
      rw [if_neg (show ¬("0.5,LeftScreen,1,1,1,0,0,0,0,5,0," = "") by decide), h1]
      rfl
    rw [h2, parseFloat_half, parseFloat_one, parseFloat_zero, parseFloat_five]
    norm_num [decode_nums, execute_command, get_tilt_kind, pyAbs, initialState]
    rfl

/-- Claim C5: provided every observed `last_action` value is either empty
or a key bound in `settings` (the configuration-completeness precondition
of the spec), a run of `start_experiment` — for any mode, any random
trial choices and any match/timeout outcomes — produces exactly 10 result
rows. -/
theorem start_experiment_length (settings : String → Option Setting)
    (choice : ℕ → String) (obs : ℕ → ℕ → String) (mode : ℕ)
    (h : ∀ j u, obs j u = "" ∨ (settings (obs j u)).isSome) :
    ∃ rs, start_experiment settings choice obs mode = some rs ∧
      rs.length = 10 :=
  experiment_loop_length settings choice obs mode h 10 0

/-- Witness for C5: with no input ever observed, the ten trials all time
out and the run still yields exactly 10 rows. -/
theorem start_experiment_length_witness :
    ∃ rs, start_experiment default_settings (fun _ => "Play/Pause")
        (fun _ _ => "") 1 = some rs ∧ rs.length = 10 :=
  start_experiment_length default_settings (fun _ => "Play/Pause")
    (fun _ _ => "") 1 (fun _ _ => Or.inl rfl)

/-- Claim C6: a trial in which no observed gesture matches the expected
interaction before the time guard expires records `found = false` with 31
elapsed ticks, i.e. 3.1 s — equal to the 3.0 s timeout within one 0.1 s
poll granularity. -/
theorem trial_timeout_records (settings : String → Option Setting)
    (ia : String) (obs : ℕ → String)
    (h : ∀ u, u ≤ 30 → obs u = "" ∨
      ∃ s, settings (obs u) = some s ∧ s.interaction ≠ ia) :
    run_trial settings ia obs = some (false, 31) ∧
    3 ≤ (31 : ℚ) / 10 ∧ (31 : ℚ) / 10 ≤ 3 + 1 / 10 := by
  refine ⟨?_, by norm_num, by norm_num⟩
  unfold run_trial
  exact poll_loop_timeout settings ia obs h 32 0 (by omega) (by omega)

/-- Witness for C6: an always-empty observation stream times out with
`found = false` at tick 31. -/
theorem trial_timeout_records_witness :
    run_trial default_settings "Play/Pause" (fun _ => "") = some (false, 31) :=
  (trial_timeout_records default_settings "Play/Pause" (fun _ => "")
    (fun _ _ => Or.inl rfl)).1

/-- Claim C7: in live mode, dispatching a gesture key whose binding is
Not Used calls the zero-argument `not_used` method, which produces no
sink effect at all: the effect list is empty, so no media-key, volume,
scroll or seek capability is invoked and the action sink is unchanged. -/
theorem not_used_never_invokes_sink (st : ServerState) (data : SensorData)
    (ty : String) (hact : st.active_status = true)
    (hs : st.settings (current_interaction st data) = some ⟨"Not Used", ty⟩) :
    (execute_command st data).1 =
      some ⟨current_interaction st data, some (Invocation.call0 "Not Used"), []⟩ := by
  simp only [current_interaction] at hs ⊢
  simp only [execute_command, get_tilt_kind_active, get_tilt_kind_settings,
    hact, if_true, hs, interaction_funcs_not_used, not_used]
  rfl

/-- Witness for C7: the default configuration binds `"LSTU"` to Not Used;
dispatching it in live mode produces an empty effect list. -/
theorem not_used_never_invokes_sink_witness :
    (execute_command { initialState with active_status := true }
        ⟨0, "LS", ⟨0, 0, 0⟩, ⟨0, 0, 0⟩, ⟨0, 0, 0⟩⟩).1 =
      some ⟨current_interaction { initialState with active_status := true }
              ⟨0, "LS", ⟨0, 0, 0⟩, ⟨0, 0, 0⟩, ⟨0, 0, 0⟩⟩,
            some (Invocation.call0 "Not Used"), []⟩ :=
  not_used_never_invokes_sink _ _ "Not Used" rfl
    (by simp [current_interaction, get_tilt_kind, pyAbs, initialState,
      default_settings, SETTINGS_KEYS])

/-- Claim C8: the parameterized flag of the dispatch table is true for
exactly the six kinds Volume +, Volume -, Seek +, Seek -, Scroll UP and
Scroll DOWN and false for the other six kinds; and a live dispatch
consults the flag first, calling a non-parameterized action with zero
arguments and a parameterized action with the binding's current
parameter kind (`Type`) as its argument. -/
theorem parameterized_flag_spec :
    (∀ name ∈ PARAMETERIZED_ACTIONS, ∃ f, interaction_funcs name = some (f, true)) ∧
    (∀ name ∈ ACTIONS, name ∉ PARAMETERIZED_ACTIONS →
      ∃ f, interaction_funcs name = some (f, false)) ∧
    (∀ (st : ServerState) (data : SensorData) (s : Setting) (f : Func) (flag : Bool),
      st.active_status = true →
      st.settings (current_interaction st data) = some s →
      interaction_funcs s.interaction = some (f, flag) →
      (∀ e, f = Func.f0 e → flag = false →
        (execute_command st data).1 =
          some ⟨current_interaction st data,
                some (Invocation.call0 s.interaction), e⟩) ∧
      (∀ g, f = Func.f1 g → flag = true →
        (execute_command st data).1 =
          some ⟨current_interaction st data,
                some (Invocation.call1 s.interaction s.type), g s.type⟩)) := by
  refine ⟨?_, ?_, ?_⟩
  · intro name h
    fin_cases h <;> exact ⟨_, rfl⟩
  · intro name h hn
    fin_cases h <;> first
      | exact ⟨_, rfl⟩
      | exact absurd (by decide) hn
  · intro st data s f flag hact hs hf
    constructor
    · rintro e rfl rfl
      simp only [current_interaction] at hs ⊢
      simp only [execute_command, get_tilt_kind_active, get_tilt_kind_settings,
        hact, if_true, hs, hf]
      rfl
    · rintro g rfl rfl
      simp only [current_interaction] at hs ⊢
      simp only [execute_command, get_tilt_kind_active, get_tilt_kind_settings,
        hact, if_true, hs, hf]

/-- Witness for C8: Volume + carries the parameterized flag. -/
theorem parameterized_flag_spec_witness :
    ∃ f, interaction_funcs "Volume +" = some (f, true) :=
  parameterized_flag_spec.1 "Volume +" (by decide)

/-- Claim C9: a record whose space-stripped comma-split field count is
not 12 is silently discarded: the step leaves the whole server state —
classifier history included — unchanged, reports nothing, and the
ingestion loop continues with the remaining records exactly as if the
record had never arrived. -/
theorem wrong_field_count_dropped (st : ServerState) (m : String)
    (ms : List String) (h : (split_fields m).length ≠ 12) :
    get_data_step st m = (StepResult.skipped, st) ∧
    get_data_loop st (m :: ms) = get_data_loop st ms := by
  have hstep : get_data_step st m = (StepResult.skipped, st) := by
    unfold get_data_step
    by_cases hm : m = ""
    · simp [hm]
    · rw [if_neg hm]
      exact decode_fields_skip st _ h
  exact ⟨hstep, by simp [get_data_loop, hstep]⟩

/-- Witness for C9: a 10-field record is dropped with the state
unchanged. -/
theorem wrong_field_count_dropped_witness :
    (split_fields "1,LS,1,1,1,0,0,0,0,5").length ≠ 12 ∧
    get_data_step initialState "1,LS,1,1,1,0,0,0,0,5" =
      (StepResult.skipped, initialState) :=
  ⟨by decide,
   (wrong_field_count_dropped initialState "1,LS,1,1,1,0,0,0,0,5" [] (by decide)).1⟩

/-- Claim C10: the classified gesture key depends only on the sample's
action zone, its rotation x and y components and the stored rotation
history's x and y components: two samples and histories agreeing on
those five values — whatever their gyroscope vectors, acceleration
vectors, rotation z components or gyroscope/acceleration history
buffers — classify to the same key. -/
theorem classification_noninterference (st st' : ServerState)
    (d d' : SensorData) (hz : d.action = d'.action)
    (hx : d.rotation.x = d'.rotation.x) (hy : d.rotation.y = d'.rotation.y)
    (h0 : st.rotation_history.x = st'.rotation_history.x)
    (h1 : st.rotation_history.y = st'.rotation_history.y) :
    current_interaction st d = current_interaction st' d' := by
  simp only [current_interaction, get_tilt_kind]
  rw [hz, hx, hy, h0, h1]

/-- Witness for C10: two samples differing in gyroscope, acceleration,
rotation z and history buffers, but agreeing on zone, rotation x/y and
rotation-history x/y, classify identically. -/
theorem classification_noninterference_witness :
    current_interaction initialState
        ⟨0, "LS", ⟨1, 2, 3⟩, ⟨4, 5, 6⟩, ⟨0, 0, 7⟩⟩ =
      current_interaction
        { initialState with gyroscope_history := ⟨9, 9, 9⟩,
                            rotation_history := ⟨0, 0, 4⟩ }
        ⟨1, "LS", ⟨7, 8, 9⟩, ⟨1, 1, 1⟩, ⟨0, 0, 9⟩⟩ :=
  classification_noninterference _ _ _ _ rfl rfl rfl rfl rfl

end Server
